import Mathlib

/-!
Verification of a 5-stage pipelined RV32I processor model against its
specification.  The repository ships the behavioral contracts (cocotb
testbenches under `src/tb/`); the hardware units themselves are not part of
the source tree, so each unit below is modelled from the specification's
component design (spec.md §3-§6) and, where the testbenches compute expected
values in Python (e.g. the ALU oracle in `src/tb/test_alu.py`), from those
oracles.  All machine words are `Nat` values reduced modulo `2^32`.
-/

/-- The 32-bit word modulus. -/
def WORD_MOD : Nat := 4294967296

/-- Reduce a value to a 32-bit machine word. -/
def mask32 (x : Nat) : Nat := x % WORD_MOD

/-- The signed (two's complement) integer a 32-bit word denotes. -/
def toSigned (x : Nat) : Int :=
  if x % WORD_MOD < 2147483648 then (x % WORD_MOD : Int)
  else (x % WORD_MOD : Int) - 4294967296

/-! ## ALU
Modelled from the spec: spec.md §4.1 and the Python reference oracle of
`src/tb/test_alu.py` (`test_random_operations` and `sign_extend`); the ALU
hardware unit is not in the repository.  Operation codes are the constants at
the top of `src/tb/test_alu.py`. -/

def ALU_ADD : Nat := 0
def ALU_SUB : Nat := 8
def ALU_SLL : Nat := 1
def ALU_SLT : Nat := 2
def ALU_SLTU : Nat := 3
def ALU_XOR : Nat := 4
def ALU_SRL : Nat := 5
def ALU_SRA : Nat := 13
def ALU_OR : Nat := 6
def ALU_AND : Nat := 7

/-- Arithmetic right shift, mirroring `sign_extend` of `src/tb/test_alu.py`:
for a negative word, shift logically and fill the vacated upper bits with
ones. -/
def sraWord (value shift : Nat) : Nat :=
  let v := value % WORD_MOD
  if 2147483648 ≤ v then
    ((v >>> shift) ||| (((1 <<< shift) - 1) <<< (32 - shift))) % WORD_MOD
  else v >>> shift

/-- The ALU result: a pure combinational function of two 32-bit operands and
the 4-bit operation code (spec.md §4.1).  Shift amounts are masked to 5 bits;
`SLT` compares after biasing both operands by `0x80000000` exactly as the
testbench oracle does; an unknown op code yields the deterministic value 0. -/
def aluResult (op a b : Nat) : Nat :=
  let x := a % WORD_MOD
  let y := b % WORD_MOD
  if op = ALU_ADD then (x + y) % WORD_MOD
  else if op = ALU_SUB then (x + (WORD_MOD - y)) % WORD_MOD
  else if op = ALU_SLL then (x <<< (y % 32)) % WORD_MOD
  else if op = ALU_SLT then (if x ^^^ 2147483648 < y ^^^ 2147483648 then 1 else 0)
  else if op = ALU_SLTU then (if x < y then 1 else 0)
  else if op = ALU_XOR then x ^^^ y
  else if op = ALU_SRL then x >>> (y % 32)
  else if op = ALU_SRA then sraWord x (y % 32)
  else if op = ALU_OR then x ||| y
  else if op = ALU_AND then x &&& y
  else 0

/-- The ALU `zero` flag: set exactly when the result is 0 (spec.md §4.1). -/
def aluZero (op a b : Nat) : Bool := aluResult op a b = 0

/-- The ALU `negative` flag: bit 31 of the result (spec.md §4.1). -/
def aluNegative (op a b : Nat) : Bool := 2147483648 ≤ aluResult op a b

/-! Arithmetic characterization of the `0x80000000` bias used by `SLT`. -/

theorem xor_msb_of_lt {a : Nat} (h : a < 2147483648) :
    a ^^^ 2147483648 = a + 2147483648 := by
  have h31 : (2147483648 : Nat) = 2 ^ 31 := by norm_num
  apply Nat.eq_of_testBit_eq
  intro i
  rcases lt_trichotomy i 31 with hi | hi | hi
  · rw [Nat.testBit_xor, h31, Nat.testBit_two_pow_of_ne (by omega),
      Nat.add_comm a, Nat.testBit_two_pow_add_gt hi]
    simp
  · subst hi
    rw [Nat.testBit_xor, h31, Nat.testBit_two_pow_self, Nat.add_comm a,
      Nat.testBit_two_pow_add_eq, Nat.testBit_lt_two_pow (by omega)]
    rfl
  · have h1 : a ^^^ 2147483648 < 2 ^ i := by
      have : a ^^^ 2147483648 < 2 ^ 32 := by
        apply Nat.xor_lt_two_pow (by omega) (by norm_num)
      calc a ^^^ 2147483648 < 2 ^ 32 := this
        _ ≤ 2 ^ i := Nat.pow_le_pow_right (by norm_num) (by omega)
    have h2 : a + 2147483648 < 2 ^ i := by
      have : a + 2147483648 < 2 ^ 32 := by omega
      calc a + 2147483648 < 2 ^ 32 := this
        _ ≤ 2 ^ i := Nat.pow_le_pow_right (by norm_num) (by omega)
    rw [Nat.testBit_lt_two_pow h1, Nat.testBit_lt_two_pow h2]

theorem xor_msb (a : Nat) (h : a < 4294967296) :
    a ^^^ 2147483648 = if a < 2147483648 then a + 2147483648 else a - 2147483648 := by
  split
  · exact xor_msb_of_lt (by omega)
  · have hb : a - 2147483648 < 2147483648 := by omega
    have := xor_msb_of_lt hb
    have ha : a = (a - 2147483648) + 2147483648 := by omega
    calc a ^^^ 2147483648 = ((a - 2147483648) + 2147483648) ^^^ 2147483648 := by rw [← ha]
      _ = ((a - 2147483648) ^^^ 2147483648) ^^^ 2147483648 := by rw [this]
      _ = a - 2147483648 := Nat.xor_cancel_right _ _

theorem slt_signed_spec (a b : Nat) :
    aluResult ALU_SLT a b = if toSigned a < toSigned b then 1 else 0 := by
  have ha : a % WORD_MOD < 4294967296 := Nat.mod_lt _ (by norm_num [WORD_MOD])
  have hb : b % WORD_MOD < 4294967296 := Nat.mod_lt _ (by norm_num [WORD_MOD])
  show (if a % WORD_MOD ^^^ 2147483648 < b % WORD_MOD ^^^ 2147483648 then 1 else 0) = _
  rw [xor_msb _ ha, xor_msb _ hb]
  unfold toSigned
  split_ifs <;> omega

/-- Claim C2: for every pair of 32-bit operands `a`, `b`, the ALU returns
`ADD(a,b) = (a+b) mod 2^32` and `SUB(a,b) = (a-b) mod 2^32`;
`SRA(0x80000000, 31) = 0xFFFFFFFF`; `SLT(a,b)` is 1 iff `a < b` as signed
32-bit values and `SLTU(a,b)` is 1 iff `a < b` as unsigned values (else 0);
and the zero flag is set iff the result equals 0. -/
theorem C2_alu_contract (a b : Nat) :
    aluResult ALU_ADD a b = (a + b) % WORD_MOD
    ∧ (aluResult ALU_SUB a b : Int) = ((a : Int) - (b : Int)) % (WORD_MOD : Int)
    ∧ aluResult ALU_SRA 2147483648 31 = 4294967295
    ∧ (aluResult ALU_SLT a b = 1 ↔ toSigned a < toSigned b)
    ∧ (aluResult ALU_SLT a b = 0 ↔ ¬ toSigned a < toSigned b)
    ∧ (aluResult ALU_SLTU a b = 1 ↔ a % WORD_MOD < b % WORD_MOD)
    ∧ (aluResult ALU_SLTU a b = 0 ↔ ¬ a % WORD_MOD < b % WORD_MOD)
    ∧ (∀ op, aluZero op a b = true ↔ aluResult op a b = 0) := by
  refine ⟨?_, ?_, by decide, ?_, ?_, ?_, ?_, ?_⟩
  · show (a % WORD_MOD + b % WORD_MOD) % WORD_MOD = _
    unfold WORD_MOD
    omega
  · show (((a % WORD_MOD + (WORD_MOD - b % WORD_MOD)) % WORD_MOD : Nat) : Int) = _
    unfold WORD_MOD
    push_cast
    omega
  · rw [slt_signed_spec]
    split_ifs with h <;> simp [h]
  · rw [slt_signed_spec]
    split_ifs with h <;> simp [h]
  · show (if a % WORD_MOD < b % WORD_MOD then 1 else 0) = 1 ↔ _
    split_ifs with h <;> simp [h]
  · show (if a % WORD_MOD < b % WORD_MOD then 1 else 0) = 0 ↔ _
    split_ifs with h <;> simp [h]
  · intro op
    simp [aluZero]

/-! ## Hazard Detection Unit
Modelled from the spec: spec.md §4.3 (the hazard unit itself is not in the
repository; its contract is `src/tb/test_hazard_detection.py`).  A pure
combinational function of the ID-stage source register addresses, the
EX-stage destination address and status flags, and the control-flow flags. -/

structure HazardIn where
  id_rs1_addr : Nat
  id_rs2_addr : Nat
  ex_rd_addr : Nat
  ex_mem_read : Bool
  ex_reg_write : Bool
  id_branch : Bool
  id_jump : Bool
  ex_branch_taken : Bool

/-- Rule 1 of spec.md §4.3: an EX-stage load whose non-zero destination equals
either ID-stage source register. -/
def loadUseHazard (i : HazardIn) : Bool :=
  i.ex_mem_read && i.ex_reg_write && decide (i.ex_rd_addr ≠ 0) &&
    (decide (i.ex_rd_addr = i.id_rs1_addr) || decide (i.ex_rd_addr = i.id_rs2_addr))

/-- Rules 2 and 3 of spec.md §4.3: a taken branch resolving in EX, or a jump
decoded in ID. -/
def controlHazard (i : HazardIn) : Bool := i.ex_branch_taken || i.id_jump

def stall_if (i : HazardIn) : Bool := loadUseHazard i

def stall_id (i : HazardIn) : Bool := loadUseHazard i

def flush_if (i : HazardIn) : Bool := controlHazard i

def flush_id (i : HazardIn) : Bool := controlHazard i

def flush_ex (i : HazardIn) : Bool := loadUseHazard i || controlHazard i

/-- Claim C3: whenever the EX-stage instruction has `mem_read = 1` and
`reg_write = 1` and its non-zero destination register equals the ID-stage
`rs1` or `rs2` address, the outputs satisfy `stall_if = stall_id = flush_ex
= 1`; and when the matching register address is 0 the load-use rule never
fires — the stall outputs stay deasserted whatever the addresses, and with no
control hazard pending `flush_ex` stays deasserted too. -/
theorem C3_load_use_hazard (i : HazardIn) :
    (i.ex_mem_read = true → i.ex_reg_write = true → i.ex_rd_addr ≠ 0 →
      (i.ex_rd_addr = i.id_rs1_addr ∨ i.ex_rd_addr = i.id_rs2_addr) →
      stall_if i = true ∧ stall_id i = true ∧ flush_ex i = true)
    ∧ (i.ex_rd_addr = 0 → stall_if i = false ∧ stall_id i = false)
    ∧ (i.ex_rd_addr = 0 → i.ex_branch_taken = false → i.id_jump = false →
      stall_if i = false ∧ stall_id i = false ∧ flush_ex i = false) := by
  refine ⟨fun hm hw hrd hmatch => ?_, fun hrd => ?_, fun hrd hbt hj => ?_⟩
  · simp [stall_if, stall_id, flush_ex, loadUseHazard, hm, hw, hrd]
    tauto
  · simp [stall_if, stall_id, loadUseHazard, hrd]
  · simp [stall_if, stall_id, flush_ex, loadUseHazard, controlHazard, hrd, hbt, hj]

/-! ## Forwarding Unit
Modelled from the spec: spec.md §4.4 (the forwarding unit itself is not in
the repository; its contract is `src/tb/test_forwarding_unit.py`).  The
selector values are the ones the testbench asserts: 0 = NONE (use the
register-file value), 1 = FROM_MEM, 2 = FROM_WB. -/

structure FwdIn where
  ex_rs1_addr : Nat
  ex_rs2_addr : Nat
  mem_rd_addr : Nat
  wb_rd_addr : Nat
  mem_reg_write : Bool
  wb_reg_write : Bool

/-- Per-operand selection (spec.md §4.4): MEM first when its non-zero
destination is written and matches, else WB under the same conditions, else
NONE. -/
def forwardSel (rs mem_rd : Nat) (mem_we : Bool) (wb_rd : Nat) (wb_we : Bool) : Nat :=
  if mem_we = true ∧ mem_rd ≠ 0 ∧ mem_rd = rs then 1
  else if wb_we = true ∧ wb_rd ≠ 0 ∧ wb_rd = rs then 2
  else 0

def forward_a (i : FwdIn) : Nat :=
  forwardSel i.ex_rs1_addr i.mem_rd_addr i.mem_reg_write i.wb_rd_addr i.wb_reg_write

def forward_b (i : FwdIn) : Nat :=
  forwardSel i.ex_rs2_addr i.mem_rd_addr i.mem_reg_write i.wb_rd_addr i.wb_reg_write

theorem forwardSel_cases (rs mem_rd : Nat) (mem_we : Bool) (wb_rd : Nat) (wb_we : Bool) :
    (forwardSel rs mem_rd mem_we wb_rd wb_we = 1 ↔
      mem_we = true ∧ mem_rd ≠ 0 ∧ mem_rd = rs)
    ∧ (forwardSel rs mem_rd mem_we wb_rd wb_we = 2 ↔
      ¬(mem_we = true ∧ mem_rd ≠ 0 ∧ mem_rd = rs)
      ∧ (wb_we = true ∧ wb_rd ≠ 0 ∧ wb_rd = rs))
    ∧ (forwardSel rs mem_rd mem_we wb_rd wb_we = 0 ↔
      ¬(mem_we = true ∧ mem_rd ≠ 0 ∧ mem_rd = rs)
      ∧ ¬(wb_we = true ∧ wb_rd ≠ 0 ∧ wb_rd = rs)) := by
  unfold forwardSel
  split_ifs with h1 h2 <;> simp_all <;> omega

/-- Claim C4: for each ALU operand, the forwarding selector is FROM_MEM iff
the MEM-stage destination is non-zero, written back, and equal to that
operand's source register; failing that, FROM_WB under the same conditions on
the WB stage; otherwise NONE.  In particular MEM wins when both stages match,
and a destination of register 0 or a deasserted `reg_write` in both stages
selects NONE. -/
theorem C4_forwarding_contract (i : FwdIn) :
    (forward_a i = 1 ↔
      i.mem_reg_write = true ∧ i.mem_rd_addr ≠ 0 ∧ i.mem_rd_addr = i.ex_rs1_addr)
    ∧ (forward_a i = 2 ↔
      ¬(i.mem_reg_write = true ∧ i.mem_rd_addr ≠ 0 ∧ i.mem_rd_addr = i.ex_rs1_addr)
      ∧ (i.wb_reg_write = true ∧ i.wb_rd_addr ≠ 0 ∧ i.wb_rd_addr = i.ex_rs1_addr))
    ∧ (forward_a i = 0 ↔
      ¬(i.mem_reg_write = true ∧ i.mem_rd_addr ≠ 0 ∧ i.mem_rd_addr = i.ex_rs1_addr)
      ∧ ¬(i.wb_reg_write = true ∧ i.wb_rd_addr ≠ 0 ∧ i.wb_rd_addr = i.ex_rs1_addr))
    ∧ (forward_b i = 1 ↔
      i.mem_reg_write = true ∧ i.mem_rd_addr ≠ 0 ∧ i.mem_rd_addr = i.ex_rs2_addr)
    ∧ (forward_b i = 2 ↔
      ¬(i.mem_reg_write = true ∧ i.mem_rd_addr ≠ 0 ∧ i.mem_rd_addr = i.ex_rs2_addr)
      ∧ (i.wb_reg_write = true ∧ i.wb_rd_addr ≠ 0 ∧ i.wb_rd_addr = i.ex_rs2_addr))
    ∧ (forward_b i = 0 ↔
      ¬(i.mem_reg_write = true ∧ i.mem_rd_addr ≠ 0 ∧ i.mem_rd_addr = i.ex_rs2_addr)
      ∧ ¬(i.wb_reg_write = true ∧ i.wb_rd_addr ≠ 0 ∧ i.wb_rd_addr = i.ex_rs2_addr))
    ∧ (i.mem_reg_write = true → i.wb_reg_write = true →
      i.mem_rd_addr ≠ 0 → i.mem_rd_addr = i.ex_rs1_addr →
      i.wb_rd_addr = i.ex_rs1_addr → forward_a i = 1)
    ∧ (i.mem_rd_addr = 0 → i.wb_rd_addr = 0 → forward_a i = 0 ∧ forward_b i = 0)
    ∧ (i.mem_reg_write = false → i.wb_reg_write = false →
      forward_a i = 0 ∧ forward_b i = 0) := by
  obtain ⟨ha1, ha2, ha0⟩ :=
    forwardSel_cases i.ex_rs1_addr i.mem_rd_addr i.mem_reg_write i.wb_rd_addr i.wb_reg_write
  obtain ⟨hb1, hb2, hb0⟩ :=
    forwardSel_cases i.ex_rs2_addr i.mem_rd_addr i.mem_reg_write i.wb_rd_addr i.wb_reg_write
  refine ⟨ha1, ha2, ha0, hb1, hb2, hb0, fun h1 h2 h3 h4 _ => ?_, fun h1 h2 => ?_, fun h1 h2 => ?_⟩
  · exact ha1.2 ⟨h1, h3, h4⟩
  · exact ⟨ha0.2 (by simp [h1, h2]), hb0.2 (by simp [h1, h2])⟩
  · exact ⟨ha0.2 (by simp [h1, h2]), hb0.2 (by simp [h1, h2])⟩

/-! ## Program Counter
Modelled from the spec: spec.md §4.5 together with the behavioral contract of
`src/tb/test_program_counter.py` (the PC hardware unit is not in the
repository).  The registered value `pc_current` is a byte address (reset value
0x1000, incremented by 4 each un-stalled cycle); the testbench always drives
the `branch_target` port with the desired byte address shifted right by two
("convert to word address"), and the observed `pc_current` after the branch is
the byte address again, so the unit shifts the port value left by two when
loading it.  Stall is checked before branch: a stalled PC holds its value even
while `branch_taken` is asserted. -/

def PC_RESET : Nat := 4096

/-- One rising clock edge of the program counter. -/
def pc_step (pc : Nat) (stall branch_taken : Bool) (branch_target : Nat) : Nat :=
  if stall then pc
  else if branch_taken then mask32 (branch_target * 4)
  else mask32 (pc + 4)

/-- Claim C5: on every rising edge the PC holds on stall (even with a
simultaneous `branch_taken`, for the whole duration of the stall), else loads
the branch target, else increments by 4; a branch pending during a stall of
any length resolves on the first edge after the stall is released. -/
theorem C5_pc_transition (pc : Nat) (stall bt : Bool) (tgt n : Nat) :
    (stall = true → pc_step pc stall bt tgt = pc)
    ∧ (stall = false → bt = true → pc_step pc stall bt tgt = mask32 (tgt * 4))
    ∧ (stall = false → bt = false → pc_step pc stall bt tgt = mask32 (pc + 4))
    ∧ (fun p => pc_step p true bt tgt)^[n] pc = pc
    ∧ pc_step ((fun p => pc_step p true bt tgt)^[n] pc) false true tgt
        = mask32 (tgt * 4) := by
  have hold : (fun p => pc_step p true bt tgt)^[n] pc = pc := by
    induction n with
    | zero => rfl
    | succ k ih => rw [Function.iterate_succ_apply, pc_step, if_pos rfl, ih]
  refine ⟨fun hs => ?_, fun hs hb => ?_, fun hs hb => ?_, hold, ?_⟩
  · simp [pc_step, hs]
  · simp [pc_step, hs, hb]
  · simp [pc_step, hs, hb]
  · rw [hold]
    simp [pc_step]

/-! For claim C9 the spec's two candidate address-unit configurations are
written out from the spec's own words, to be compared with the observed
`pc_step`. -/

/-- Modelled from the spec: the byte-unit configuration of spec.md §9 — the
loaded `branch_target` is a raw byte address and the increment is 4. -/
def pc_step_byte (pc : Nat) (stall branch_taken : Bool) (branch_target : Nat) : Nat :=
  if stall then pc
  else if branch_taken then mask32 branch_target
  else mask32 (pc + 4)

/-- Modelled from the spec: the word-unit configuration of spec.md §9 — the
stored address counts words (the loaded `branch_target` is the word address
as driven) and the increment is 1. -/
def pc_step_word (pc : Nat) (stall branch_taken : Bool) (branch_target : Nat) : Nat :=
  if stall then pc
  else if branch_taken then mask32 branch_target
  else mask32 (pc + 1)

/-- Claim C9 fails on the code: replaying `test_branch` of
`src/tb/test_program_counter.py` (branch_target port driven with
0x1000 >> 2 = 0x400, the PC observed at 0x1000 and then 0x1004), the PC
word-shifts the loaded branch target while incrementing by 4 — the exact
mixed configuration the claim says no configuration has.  Neither the byte
unit (which would leave the PC at 0x400) nor the word unit (which would
increment by 1) reproduces the observed transitions. -/
theorem C9_counterexample :
    pc_step 4100 false true 1024 = 4096
    ∧ pc_step_byte 4100 false true 1024 = 1024
    ∧ pc_step_word 4100 false true 1024 = 1024
    ∧ pc_step 4096 false false 0 = 4100
    ∧ pc_step_byte 4096 false false 0 = 4100
    ∧ pc_step_word 4096 false false 0 = 4097
    ∧ (4096 : Nat) ≠ 1024
    ∧ (4100 : Nat) ≠ 4097 := by
  refine ⟨by decide, by decide, by decide, by decide, by decide, by decide, by decide, by decide⟩

/-- Claim C9 amended: the PC's `branch_target` input is a word address,
shifted left by two when loaded, while the PC value itself and its per-edge
increment are in byte units (+4): the address unit is mixed across the two
paths rather than a consistent byte-or-word configuration parameter. -/
theorem C9_amended_mixed_unit (pc : Nat) (bt : Bool) (tgt : Nat) :
    (pc_step pc false true tgt = mask32 (tgt * 4))
    ∧ (pc_step pc false false tgt = mask32 (pc + 4))
    ∧ (pc_step pc true bt tgt = pc) := by
  exact ⟨by simp [pc_step], by simp [pc_step], by simp [pc_step]⟩

/-! ## Pipeline Registers
Modelled from the spec: spec.md §4.6 and §3 (pipeline stage registers), with
the port lists of `src/tb/test_pipeline_registers.py`; the four register
modules themselves are not in the repository.  Each register is a synchronous
latch with a flush input that overrides stall and loads the NOP-equivalent
bundle: all control signals false, data fields zero, and — for IF/ID, which
carries the instruction word itself — the NOP encoding 0x00000013 that
`test_if_id_reg` asserts after a flush. -/

structure IFIDBundle where
  pc : Nat
  instruction : Nat

structure IDEXBundle where
  reg_write : Bool
  alu_src : Bool
  alu_op : Nat
  mem_write : Bool
  mem_read : Bool
  mem_size : Nat
  branch : Bool
  jump : Bool
  result_src : Nat
  pc : Nat
  rs1_data : Nat
  rs2_data : Nat
  imm : Nat
  rs1_addr : Nat
  rs2_addr : Nat
  rd_addr : Nat
  funct3 : Nat

structure EXMEMBundle where
  reg_write : Bool
  mem_write : Bool
  mem_read : Bool
  mem_size : Nat
  result_src : Nat
  alu_result : Nat
  rs2_data : Nat
  rd_addr : Nat
  pc_plus4 : Nat

structure MEMWBBundle where
  reg_write : Bool
  result_src : Nat
  alu_result : Nat
  read_data : Nat
  rd_addr : Nat
  pc_plus4 : Nat

/-- The NOP-equivalent IF/ID bundle: the NOP instruction word, PC zero. -/
def ifIdNop : IFIDBundle := { pc := 0, instruction := 19 }

/-- The NOP-equivalent ID/EX bundle: all control signals false. -/
def idExNop : IDEXBundle :=
  { reg_write := false, alu_src := false, alu_op := 0, mem_write := false
  , mem_read := false, mem_size := 0, branch := false, jump := false
  , result_src := 0, pc := 0, rs1_data := 0, rs2_data := 0, imm := 0
  , rs1_addr := 0, rs2_addr := 0, rd_addr := 0, funct3 := 0 }

/-- The NOP-equivalent EX/MEM bundle: all control signals false. -/
def exMemNop : EXMEMBundle :=
  { reg_write := false, mem_write := false, mem_read := false, mem_size := 0
  , result_src := 0, alu_result := 0, rs2_data := 0, rd_addr := 0, pc_plus4 := 0 }

/-- The NOP-equivalent MEM/WB bundle: all control signals false. -/
def memWbNop : MEMWBBundle :=
  { reg_write := false, result_src := 0, alu_result := 0, read_data := 0
  , rd_addr := 0, pc_plus4 := 0 }

def if_id_step (flush stall : Bool) (cur inp : IFIDBundle) : IFIDBundle :=
  if flush then ifIdNop else if stall then cur else inp

def id_ex_step (flush stall : Bool) (cur inp : IDEXBundle) : IDEXBundle :=
  if flush then idExNop else if stall then cur else inp

def ex_mem_step (flush stall : Bool) (cur inp : EXMEMBundle) : EXMEMBundle :=
  if flush then exMemNop else if stall then cur else inp

def mem_wb_step (flush stall : Bool) (cur inp : MEMWBBundle) : MEMWBBundle :=
  if flush then memWbNop else if stall then cur else inp

/-- Claim C6: on every rising edge each of the four pipeline registers loads
the NOP-equivalent bundle when its flush input is asserted (overriding a
simultaneously asserted stall), else retains its previous output when its
stall input is asserted, else loads the values presented at its input. -/
theorem C6_pipeline_register_transition (flush stall : Bool)
    (c1 i1 : IFIDBundle) (c2 i2 : IDEXBundle) (c3 i3 : EXMEMBundle) (c4 i4 : MEMWBBundle) :
    (flush = true → if_id_step flush stall c1 i1 = ifIdNop
      ∧ id_ex_step flush stall c2 i2 = idExNop
      ∧ ex_mem_step flush stall c3 i3 = exMemNop
      ∧ mem_wb_step flush stall c4 i4 = memWbNop)
    ∧ (flush = false → stall = true → if_id_step flush stall c1 i1 = c1
      ∧ id_ex_step flush stall c2 i2 = c2
      ∧ ex_mem_step flush stall c3 i3 = c3
      ∧ mem_wb_step flush stall c4 i4 = c4)
    ∧ (flush = false → stall = false → if_id_step flush stall c1 i1 = i1
      ∧ id_ex_step flush stall c2 i2 = i2
      ∧ ex_mem_step flush stall c3 i3 = i3
      ∧ mem_wb_step flush stall c4 i4 = i4)
    ∧ (ifIdNop.instruction = 19 ∧ idExNop.reg_write = false
      ∧ idExNop.mem_write = false ∧ idExNop.mem_read = false
      ∧ idExNop.branch = false ∧ idExNop.jump = false
      ∧ exMemNop.reg_write = false ∧ exMemNop.mem_write = false
      ∧ exMemNop.mem_read = false ∧ memWbNop.reg_write = false) := by
  refine ⟨fun hf => ?_, fun hf hs => ?_, fun hf hs => ?_, by decide⟩
  · simp [if_id_step, id_ex_step, ex_mem_step, mem_wb_step, hf]
  · simp [if_id_step, id_ex_step, ex_mem_step, mem_wb_step, hf, hs]
  · simp [if_id_step, id_ex_step, ex_mem_step, mem_wb_step, hf, hs]

/-! ## Register File
Modelled from the spec: spec.md §3 and §5 (the register file module is not in
the repository; its contract is `src/tb/test_register_file.py`).  State is a
map from register address to 32-bit value, reset to all zeros; two
asynchronous read ports observe the current (pre-edge) state; the single
synchronous write port commits on the rising edge, and a write whose
destination is register 0 is discarded. -/

/-- The register file state after reset: every register zero. -/
def rfReset : Nat → Nat := fun _ => 0

/-- The rising-edge write: commits `v` to register `rd` when write-enable is
asserted and `rd` is not register 0; otherwise the state is unchanged. -/
def rfWrite (s : Nat → Nat) (we : Bool) (rd v : Nat) : Nat → Nat :=
  if we = true ∧ rd ≠ 0 then fun i => if i = rd then v else s i else s

/-- An asynchronous read port: a pure function of the current state. -/
def rfRead (s : Nat → Nat) (a : Nat) : Nat := s a

/-- One clock cycle of the register file: both read ports sample the state as
it is during the cycle, and the write port's effect becomes the next state at
the rising edge. -/
structure RFCycleOut where
  rs1_data : Nat
  rs2_data : Nat
  next : Nat → Nat

def rfCycle (s : Nat → Nat) (rs1 rs2 : Nat) (we : Bool) (rd v : Nat) : RFCycleOut :=
  { rs1_data := rfRead s rs1, rs2_data := rfRead s rs2, next := rfWrite s we rd v }

/-- Claim C7 fails on the code at register 0: writing 0xFFFFFFFF to register
0 from the reset state is discarded, so the following cycle's read returns 0,
not the newly written value (`test_x0_read` of `src/tb/test_register_file.py`
demands exactly this). -/
theorem C7_counterexample :
    rfRead (rfCycle rfReset 0 0 true 0 4294967295).next 0 = 0
    ∧ (0 : Nat) ≠ 4294967295 := by
  constructor
  · rfl
  · decide

/-- Claim C7 amended: for every register `r` other than register 0 and every
pair of old/new values, a read of `r` issued in the same cycle as a write to
`r` returns the pre-write (old) value on both ports, and a read of `r` in the
following cycle returns the newly written value.  (A write to register 0 is
discarded, so its reads return the hardwired zero instead.) -/
theorem C7_read_during_write (s : Nat → Nat) (r v : Nat) (h : r ≠ 0) :
    (rfCycle s r r true r v).rs1_data = s r
    ∧ (rfCycle s r r true r v).rs2_data = s r
    ∧ rfRead (rfCycle s r r true r v).next r = v := by
  refine ⟨rfl, rfl, ?_⟩
  simp [rfCycle, rfRead, rfWrite, h]

/-- Witness for C7: the concrete sequence of `test_concurrent_read_write` —
register 5 holds 0xAAAAAAAA, a write of 0x55555555 arrives; the same-cycle
reads see 0xAAAAAAAA and the next cycle reads 0x55555555. -/
theorem C7_read_during_write_witness :
    (rfCycle (rfWrite rfReset true 5 2863311530) 5 5 true 5 1431655765).rs1_data
        = rfWrite rfReset true 5 2863311530 5
    ∧ (rfCycle (rfWrite rfReset true 5 2863311530) 5 5 true 5 1431655765).rs2_data
        = rfWrite rfReset true 5 2863311530 5
    ∧ rfRead (rfCycle (rfWrite rfReset true 5 2863311530) 5 5 true 5 1431655765).next 5
        = 1431655765 :=
  C7_read_during_write (rfWrite rfReset true 5 2863311530) 5 1431655765 (by decide)

/-- A single write step keeps register 0 at zero. -/
theorem rfWrite_keeps_x0 (s : Nat → Nat) (we : Bool) (rd v : Nat) (h : s 0 = 0) :
    rfWrite s we rd v 0 = 0 := by
  unfold rfWrite
  split
  · next hc =>
    simp only []
    rw [if_neg (by omega), h]
  · exact h

/-- Claim C8: register 0 is logically zero in every reachable state — a write
with destination 0 never changes the state, and after any sequence of write
operations from reset both read ports return 0 for address 0. -/
theorem C8_x0_always_zero (ops : List (Bool × Nat × Nat)) :
    (∀ s we v, rfWrite s we 0 v = s)
    ∧ rfRead (ops.foldl (fun s o => rfWrite s o.1 o.2.1 o.2.2) rfReset) 0 = 0
    ∧ (rfCycle (ops.foldl (fun s o => rfWrite s o.1 o.2.1 o.2.2) rfReset)
        0 0 true 0 4294967295).rs1_data = 0
    ∧ (rfCycle (ops.foldl (fun s o => rfWrite s o.1 o.2.1 o.2.2) rfReset)
        0 0 true 0 4294967295).rs2_data = 0 := by
  have hzero : ∀ (l : List (Bool × Nat × Nat)) (s : Nat → Nat), s 0 = 0 →
      (l.foldl (fun s o => rfWrite s o.1 o.2.1 o.2.2) s) 0 = 0 := by
    intro l
    induction l with
    | nil => intro s h; exact h
    | cons o t ih =>
      intro s h
      exact ih _ (rfWrite_keeps_x0 s o.1 o.2.1 o.2.2 h)
  have hreach := hzero ops rfReset rfl
  refine ⟨fun s we v => ?_, hreach, hreach, hreach⟩
  unfold rfWrite
  rw [if_neg (by simp)]

/-! ## Instruction Memory
Modelled from the spec: spec.md §6 and §7 together with the contract of
`src/tb/test_instruction_memory.py` (the memory module itself is not in the
repository).  A 1024-byte (256-word) read-only array, initialized entirely to
the NOP encoding 0x00000013 and populated word-by-word by the external
loader.  A read is a total function of the byte address: the low two address
bits are ignored (the word index is `addr / 4`), and an index outside the
array yields the deterministic default NOP rather than a fault. -/

/-- The NOP instruction encoding, `addi x0, x0, 0`. -/
def NOP_WORD : Nat := 19

/-- The initial instruction memory: 256 words of NOP. -/
def imemReset : List Nat := List.replicate 256 NOP_WORD

/-- The external loader writing one word at a word index. -/
def imemLoadWord (mem : List Nat) (i w : Nat) : List Nat := mem.set i w

/-- The read port: byte address in, instruction word out; low two bits of the
address are masked off by indexing with `addr / 4`. -/
def imemRead (mem : List Nat) (addr : Nat) : Nat := mem.getD (addr % WORD_MOD / 4) NOP_WORD

theorem imemReset_getD (j : Nat) : imemReset.getD j NOP_WORD = NOP_WORD := by
  unfold imemReset
  rcases Nat.lt_or_ge j 256 with h | h
  · rw [List.getD_eq_getElem _ _ (by rw [List.length_replicate]; exact h)]
    exact List.getElem_replicate _ _
  · rw [List.getD_eq_default _ _ (by rw [List.length_replicate]; exact h)]

theorem imemLoad_untouched (loads : List (Nat × Nat)) (mem : List Nat) (j : Nat)
    (h : ∀ p ∈ loads, p.1 ≠ j) :
    (loads.foldl (fun m p => imemLoadWord m p.1 p.2) mem).getD j NOP_WORD
      = mem.getD j NOP_WORD := by
  induction loads generalizing mem with
  | nil => rfl
  | cons p t ih =>
    have hp : p.1 ≠ j := h p (List.mem_cons_self p t)
    have ht : ∀ q ∈ t, q.1 ≠ j := fun q hq => h q (List.mem_cons_of_mem p hq)
    rw [List.foldl_cons, ih _ ht]
    unfold imemLoadWord
    rcases Nat.lt_or_ge j mem.length with hj | hj
    · rw [List.getD_eq_getElem _ _ (by rw [List.length_set]; exact hj),
        List.getD_eq_getElem _ _ hj, List.getElem_set_ne hp]
    · rw [List.getD_eq_default _ _ (by rw [List.length_set]; exact hj),
        List.getD_eq_default _ _ hj]

/-- Claim C10: every instruction-memory read is a total function of the
address — word-aligned, unaligned, or beyond the 1024-byte bound — reading
an unaligned address as its containing word (low two address bits ignored),
and every word location the loader never wrote reads as the NOP encoding
0x00000013. -/
theorem C10_imem_default_nop (loads : List (Nat × Nat)) (addr : Nat)
    (h : ∀ p ∈ loads, p.1 ≠ addr % WORD_MOD / 4) :
    imemRead (loads.foldl (fun m p => imemLoadWord m p.1 p.2) imemReset) addr = NOP_WORD
    ∧ (∀ (mem : List Nat) (a : Nat), imemRead mem a = imemRead mem (a - a % 4)) := by
  constructor
  · unfold imemRead
    rw [imemLoad_untouched loads imemReset _ h, imemReset_getD]
  · intro mem a
    unfold imemRead
    have : a % WORD_MOD / 4 = (a - a % 4) % WORD_MOD / 4 := by
      unfold WORD_MOD
      omega
    rw [this]

/-- Witness for C10: loading a single word at index 0 and reading the
unaligned out-of-pattern address 0x3FD (word 255, never loaded) returns NOP;
the masking equation is instantiated alongside. -/
theorem C10_imem_default_nop_witness :
    imemRead ([((0 : Nat), (305419896 : Nat))].foldl
        (fun m p => imemLoadWord m p.1 p.2) imemReset) 1021 = NOP_WORD
    ∧ (∀ (mem : List Nat) (a : Nat), imemRead mem a = imemRead mem (a - a % 4)) :=
  C10_imem_default_nop [(0, 305419896)] 1021 (by decide)

/-! ## ISA-level CPU model and the Fibonacci program
Modelled from the spec: the CPU core is not in the repository, so execution
is modelled at the architectural (ISA) level from spec.md §2-§4: positional
field extraction and type-dependent immediates (§3, §4.2), register file with
hardwired zero (§3), byte-addressable little-endian data memory (§6, matching
`read_memory`/`write_memory` of `src/tb/test_programs.py`), and sequential
PC/branch/jump semantics.  The pipeline's hazard, forwarding and stall
machinery preserves this architectural behavior by construction (§4.3-§4.6),
so the end-to-end memory image of a program is the ISA-level one.  The
Fibonacci program is the hand-assembly of `tb/programs/fibonacci.s` as
written in `test_fibonacci` of `src/tb/test_programs.py` (pseudo-instructions
expanded: li→addi/lui, mv→addi, beqz→beq, j→jal). -/

def opcodeOf (w : Nat) : Nat := w % 128

def rdOf (w : Nat) : Nat := w / 128 % 32

def funct3Of (w : Nat) : Nat := w / 4096 % 8

def rs1Of (w : Nat) : Nat := w / 32768 % 32

def rs2Of (w : Nat) : Nat := w / 1048576 % 32

def funct7Of (w : Nat) : Nat := w / 33554432 % 128

/-- Sign-extend a `bits`-wide field to a 32-bit two's complement word. -/
def signExtendField (bits v : Nat) : Nat :=
  if v < 2 ^ (bits - 1) then v else v + (WORD_MOD - 2 ^ bits)

def immI (w : Nat) : Nat := signExtendField 12 (w / 1048576)

def immS (w : Nat) : Nat := signExtendField 12 (rdOf w + 32 * funct7Of w)

def immB (w : Nat) : Nat :=
  signExtendField 13
    (funct7Of w / 64 * 4096 + rdOf w % 2 * 2048 + funct7Of w % 64 * 32 + rdOf w / 2 * 2)

def immU (w : Nat) : Nat := w / 4096 % 1048576 * 4096

def immJ (w : Nat) : Nat :=
  signExtendField 21
    (w / 2147483648 % 2 * 1048576 + w / 4096 % 256 * 4096
      + w / 1048576 % 2 * 2048 + w / 2097152 % 1024 * 2)

/-- Architectural machine state: program counter, register map, and
byte-addressable data memory. -/
structure CpuState where
  pc : Nat
  regs : Nat → Nat
  dmem : Nat → Nat

def regRead (regs : Nat → Nat) (r : Nat) : Nat := if r = 0 then 0 else regs r

def regWrite (regs : Nat → Nat) (r v : Nat) : Nat → Nat :=
  if r = 0 then regs else fun i => if i = r then v else regs i

def storeByte (m : Nat → Nat) (a v : Nat) : Nat → Nat :=
  fun i => if i = a then v % 256 else m i

/-- Little-endian word store, byte lane by byte lane, as `write_memory` of
`src/tb/test_programs.py` lays a word out. -/
def storeWord (m : Nat → Nat) (a v : Nat) : Nat → Nat :=
  storeByte (storeByte (storeByte (storeByte m a v) (a + 1) (v / 256)) (a + 2) (v / 65536))
    (a + 3) (v / 16777216)

/-- Little-endian word load, as `read_memory` of `src/tb/test_programs.py`
assembles a word. -/
def loadWord (m : Nat → Nat) (a : Nat) : Nat :=
  m a + 256 * m (a + 1) + 65536 * m (a + 2) + 16777216 * m (a + 3)

/-- Execute one instruction word: the RV32I subset the programs of
`src/tb/test_programs.py` use — OP-IMM (addi), LUI, OP (add/sub), STORE (sw),
BRANCH (beq/bne), JAL; anything else falls through as a NOP. -/
def execInstr (s : CpuState) (w : Nat) : CpuState :=
  let x1 := regRead s.regs (rs1Of w)
  let x2 := regRead s.regs (rs2Of w)
  let nextPc := mask32 (s.pc + 4)
  if opcodeOf w = 19 then
    { s with pc := nextPc, regs := regWrite s.regs (rdOf w) (mask32 (x1 + immI w)) }
  else if opcodeOf w = 55 then
    { s with pc := nextPc, regs := regWrite s.regs (rdOf w) (immU w) }
  else if opcodeOf w = 51 then
    let v := if funct7Of w = 32 then mask32 (x1 + (WORD_MOD - x2)) else mask32 (x1 + x2)
    { s with pc := nextPc, regs := regWrite s.regs (rdOf w) v }
  else if opcodeOf w = 35 then
    { s with pc := nextPc, dmem := storeWord s.dmem (mask32 (x1 + immS w)) x2 }
  else if opcodeOf w = 99 then
    if (if funct3Of w = 0 then x1 = x2 else x1 ≠ x2)
    then { s with pc := mask32 (s.pc + immB w) }
    else { s with pc := nextPc }
  else if opcodeOf w = 111 then
    { s with pc := mask32 (s.pc + immJ w), regs := regWrite s.regs (rdOf w) nextPc }
  else { s with pc := nextPc }

/-- Fetch from word-addressed instruction memory (unwritten locations read as
NOP, spec.md §6) and execute. -/
def cpuStep (imem : List Nat) (s : CpuState) : CpuState :=
  execInstr s (imem.getD (s.pc / 4) NOP_WORD)

def cpuRun (imem : List Nat) (s : CpuState) : Nat → CpuState
  | 0 => s
  | n + 1 => cpuRun imem (cpuStep imem s) n

/-! Instruction encoders (the external assembler's output format, RV32I base
encodings as also used by the helpers of `src/tb/test_cpu_core.py`).  Branch
and jump immediates are given as their 13- and 21-bit two's-complement bit
patterns. -/

def encodeR (f7 rs2 rs1 f3 rd : Nat) : Nat :=
  f7 * 33554432 + rs2 * 1048576 + rs1 * 32768 + f3 * 4096 + rd * 128 + 51

def encodeI (imm rs1 f3 rd opc : Nat) : Nat :=
  imm * 1048576 + rs1 * 32768 + f3 * 4096 + rd * 128 + opc

def encodeS (imm rs2 rs1 f3 : Nat) : Nat :=
  imm / 32 * 33554432 + rs2 * 1048576 + rs1 * 32768 + f3 * 4096 + imm % 32 * 128 + 35

def encodeB (imm rs2 rs1 f3 : Nat) : Nat :=
  imm / 4096 % 2 * 2147483648 + imm / 32 % 64 * 33554432 + rs2 * 1048576 + rs1 * 32768
    + f3 * 4096 + imm / 2 % 16 * 256 + imm / 2048 % 2 * 128 + 99

def encodeU (imm20 rd : Nat) : Nat := imm20 * 4096 + rd * 128 + 55

def encodeJ (imm rd : Nat) : Nat :=
  imm / 1048576 % 2 * 2147483648 + imm / 2 % 1024 * 2097152 + imm / 2048 % 2 * 1048576
    + imm / 4096 % 256 * 4096 + rd * 128 + 111

/-- The Fibonacci program of `tb/programs/fibonacci.s`, hand-assembled.
Offsets: the `beq` at byte 36 jumps +32 to `done` at 68; the `jal` at byte 64
jumps −28 (pattern `2^21 − 28`) back to `loop` at 36. -/
def fibProgram : List Nat :=
  [ encodeI 0 0 0 1 19
  , encodeI 1 0 0 2 19
  , encodeI 10 0 0 3 19
  , encodeU 1 4
  , encodeS 0 3 4 2
  , encodeS 4 1 4 2
  , encodeS 8 2 4 2
  , encodeI 8 4 0 4 19
  , encodeI 4094 3 0 3 19
  , encodeB 32 0 3 0
  , encodeR 0 2 1 0 5
  , encodeI 0 2 0 1 19
  , encodeI 0 5 0 2 19
  , encodeI 4 4 0 4 19
  , encodeS 0 5 4 2
  , encodeI 4095 3 0 3 19
  , encodeJ 2097124 0
  , encodeI 0 0 0 0 19 ]

/-- Power-on state: PC at word 0 of the loaded program, registers and data
memory cleared (the testbench zeroes both before the run). -/
def fibInitState : CpuState := { pc := 0, regs := fun _ => 0, dmem := fun _ => 0 }

set_option maxRecDepth 200000 in
/-- Claim C1: running the 10-term Fibonacci-generation program to completion
(the `beq` exit is reached after 74 instructions, at the `done` address 68;
the testbench runs 100 cycles) leaves data memory at base address 0x1000
holding exactly the eleven words `[10, 0, 1, 1, 2, 3, 5, 8, 13, 21, 34]`. -/
theorem C1_fibonacci_memory_image :
    (cpuRun fibProgram fibInitState 74).pc = 68
    ∧ (List.range 11).map
        (fun i => loadWord (cpuRun fibProgram fibInitState 74).dmem (4096 + 4 * i))
      = [10, 0, 1, 1, 2, 3, 5, 8, 13, 21, 34]
    ∧ (List.range 11).map
        (fun i => loadWord (cpuRun fibProgram fibInitState 100).dmem (4096 + 4 * i))
      = [10, 0, 1, 1, 2, 3, 5, 8, 13, 21, 34] := by
  refine ⟨by decide, by decide, by decide⟩
